import Mathlib

-- Verification of the polling energy logger (src/utils/pulse-fetch-data.py)
-- and the MAC-suffix helper (src/utils/create-access-details.py).
-- Real numbers of the Python source are modelled as rationals; fallible
-- Python code is modelled with Option (a caught exception / None) or
-- Except (an uncaught exception that kills the process).

-- JSON value bound to the "value" field of the device response body.
-- A numeric value (int/float/numeric string) converts under float();
-- any other value makes float() raise.
inductive JsonValue where
  | num (q : ℚ)
  | nonNumeric
deriving DecidableEq

-- Body of an HTTP response: a parseable JSON object whose "value" field is
-- optional, or a body on which response.json() raises.
inductive JsonBody where
  | malformed
  | object (value : Option JsonValue)
deriving DecidableEq

-- An HTTP response that arrived (no network failure / timeout).
structure HttpResponse where
  status : ℕ
  body : JsonBody
deriving DecidableEq

-- fetch_energy_value (pulse-fetch-data.py lines 15-25).
-- Input none models requests.get raising (network failure / timeout).
-- raise_for_status raises on status >= 400; data.get("value", 0.0)
-- defaults to 0.0 when the field is missing; every exception is caught
-- and None is returned.
def fetch_energy_value (resp : Option HttpResponse) : Option ℚ :=
  match resp with
  | none => none
  | some r =>
    if 400 ≤ r.status then none
    else
      match r.body with
      | JsonBody.malformed => none
      | JsonBody.object none => some 0
      | JsonBody.object (some JsonValue.nonNumeric) => none
      | JsonBody.object (some (JsonValue.num q)) => some q

-- Header row written by write_csv_row when LOG_FILE does not yet exist
-- (pulse-fetch-data.py line 35).
def csvHeader : List String :=
  ["datetime_utc", "datetime_local", "watt_hours", "cost_dollars", "is_peak"]

-- write_csv_row (pulse-fetch-data.py lines 28-36). The file is modelled as
-- Option (List row): none when LOG_FILE does not exist, some rows when it
-- exists with the given rows. Existence is tested first; the file is then
-- opened in append mode (creating it if missing), the header is written
-- only when the file did not exist, and the row is appended.
def write_csv_row (file : Option (List (List String))) (row : List String) :
    Option (List (List String)) :=
  match file with
  | none => some ([csvHeader] ++ [row])
  | some rows => some (rows ++ [row])

-- N successive calls of write_csv_row, one per element of rows.
def append_rows (file : Option (List (List String))) (rows : List (List String)) :
    Option (List (List String)) :=
  rows.foldl write_csv_row file

-- RATE_PER_KWH (pulse-fetch-data.py line 11): cost per kWh in dollars.
def RATE_PER_KWH : ℚ := 0.30

-- PEAK_HOURS (pulse-fetch-data.py line 12): range(16, 21).
def PEAK_HOURS : List ℕ := List.range' 16 5

-- A local timestamp; classify only ever reads the hour component.
structure LocalTimestamp where
  year : ℕ
  month : ℕ
  day : ℕ
  hour : ℕ
  minute : ℕ

-- The peak classification `now_local.hour in PEAK_HOURS`
-- (pulse-fetch-data.py line 75).
def classify (ts : LocalTimestamp) : Bool := PEAK_HOURS.contains ts.hour

-- The cost computation `watt_hours * RATE_PER_KWH / 1000`
-- (pulse-fetch-data.py line 74).
def cost (watt_hours : ℚ) : ℚ := watt_hours * RATE_PER_KWH / 1000

-- Delta computation of the main loop (pulse-fetch-data.py lines 68-72):
-- total_watt_hours = value_kwh * 1000;
-- watt_hours = total_watt_hours - total_watt_hours_last;
-- total_watt_hours_last = total_watt_hours.
-- Returns (watt_hours, updated total_watt_hours_last).
def compute_delta (total_watt_hours_last : ℚ) (value_kwh : ℚ) : ℚ × ℚ :=
  let total_watt_hours := value_kwh * 1000
  let watt_hours := total_watt_hours - total_watt_hours_last
  (watt_hours, total_watt_hours)

-- Startup step of main (pulse-fetch-data.py lines 57-60):
-- value_kwh = fetch_energy_value(device_name)
-- total_watt_hours_last = value_kwh * 1000
-- There is no None check here: in Python, None * 1000 raises a TypeError
-- that nothing catches, so the process dies. Except.error models that
-- uncaught exception; Except.ok carries the seeded baseline.
def startup_step (fetch_result : Option ℚ) : Except String ℚ :=
  match fetch_result with
  | none => Except.error "TypeError: unsupported operand type for *: NoneType and int"
  | some value_kwh => Except.ok (value_kwh * 1000)

-- Python float formatting of the row fields. Values are exact rationals
-- here; f-string .Nf formatting rounds to N decimals with ties to even.
def round_half_even (q : ℚ) : ℤ :=
  let f : ℤ := Int.floor q
  let frac : ℚ := q - f
  if frac < 1/2 then f
  else if 1/2 < frac then f + 1
  else if f % 2 = 0 then f else f + 1

def padLeftZeros (s : String) (len : ℕ) : String :=
  String.mk (List.replicate (len - s.length) '0') ++ s

-- Renders an already-scaled integer (the value times 10 ^ decimals) as a
-- fixed-point decimal string.
def format_scaled (scaled : ℤ) (decimals : ℕ) : String :=
  if decimals = 0 then toString scaled
  else
    let sign := if scaled < 0 then "-" else ""
    let n := scaled.natAbs
    let ip := n / 10 ^ decimals
    let fp := n % 10 ^ decimals
    sign ++ toString ip ++ "." ++ padLeftZeros (toString fp) decimals

-- f"{q:.Nf}" on an exact rational value.
def format_fixed (decimals : ℕ) (q : ℚ) : String :=
  format_scaled (round_half_even (q * (10 : ℚ) ^ decimals)) decimals

-- State carried across iterations of the main loop: the baseline
-- total_watt_hours_last and the log file.
structure LoopState where
  total_watt_hours_last : ℚ
  file : Option (List (List String))
deriving DecidableEq

-- One iteration of the while loop of main (pulse-fetch-data.py lines
-- 62-90): on a successful fetch, compute the delta, cost and peak flag,
-- format the row and append it; on a failed fetch (None), do nothing.
def loop_iteration (st : LoopState) (fetch_result : Option ℚ)
    (utc_str local_str : String) (local_hour : ℕ) : LoopState :=
  match fetch_result with
  | none => st
  | some value_kwh =>
    let total_watt_hours := value_kwh * 1000
    let watt_hours := total_watt_hours - st.total_watt_hours_last
    let cost_dollars := watt_hours * RATE_PER_KWH / 1000
    let is_peak := if PEAK_HOURS.contains local_hour then "TRUE" else "FALSE"
    let row := [utc_str, local_str, format_fixed 0 watt_hours,
      format_fixed 6 cost_dollars, is_peak]
    { total_watt_hours_last := total_watt_hours,
      file := write_csv_row st.file row }

-- Test whether a character matches the regex class [0-9a-fA-F]
-- (create-access-details.py line 65).
def isHexChar (c : Char) : Bool :=
  (decide ('0' ≤ c) && decide (c ≤ '9')) ||
  (decide ('a' ≤ c) && decide (c ≤ 'f')) ||
  (decide ('A' ≤ c) && decide (c ≤ 'F'))

-- clean_and_extract_mac_suffix (create-access-details.py lines 54-74):
-- strip every non-hex character, uppercase, require at least 6 characters
-- (raising ValueError otherwise, modelled by Except.error), and return the
-- last 6 characters.
def clean_and_extract_mac_suffix (mac_address : String) : Except String String :=
  let cleaned_mac := String.mk ((mac_address.data.filter isHexChar).map Char.toUpper)
  if cleaned_mac.length < 6 then
    Except.error "MAC address must contain at least 6 hex characters."
  else
    Except.ok (String.mk (cleaned_mac.data.drop (cleaned_mac.data.length - 6)))

-- Helper lemmas --------------------------------------------------------

theorem append_rows_some (rows prior : List (List String)) :
    append_rows (some prior) rows = some (prior ++ rows) := by
  induction rows generalizing prior with
  | nil => simp [append_rows]
  | cons r rs ih =>
    simp only [append_rows, List.foldl_cons] at *
    rw [show write_csv_row (some prior) r = some (prior ++ [r]) from rfl, ih]
    simp

theorem round_half_even_int (n : ℤ) : round_half_even (n : ℚ) = n := by
  unfold round_half_even
  norm_num

theorem format_fixed_eq (d : ℕ) (q : ℚ) (n : ℤ) (h : q * (10 : ℚ) ^ d = (n : ℚ)) :
    format_fixed d q = format_scaled n d := by
  unfold format_fixed
  rw [h, round_half_even_int]

theorem isHexChar_toNat (c : Char) (h : isHexChar c = true) :
    (48 ≤ c.toNat ∧ c.toNat ≤ 57) ∨ (97 ≤ c.toNat ∧ c.toNat ≤ 102) ∨
    (65 ≤ c.toNat ∧ c.toNat ≤ 70) := by
  simp only [isHexChar, Bool.or_eq_true, Bool.and_eq_true, decide_eq_true_eq] at h
  rcases h with (⟨h1, h2⟩ | ⟨h1, h2⟩) | ⟨h1, h2⟩
  · exact Or.inl ⟨h1, h2⟩
  · exact Or.inr (Or.inl ⟨h1, h2⟩)
  · exact Or.inr (Or.inr ⟨h1, h2⟩)

theorem toUpper_of_not_lower (c : Char) (h : ¬ (97 ≤ c.toNat ∧ c.toNat ≤ 122)) :
    c.toUpper = c := by
  unfold Char.toUpper
  rw [if_neg h]

theorem toNat_toUpper_of_lower (c : Char) (h : 97 ≤ c.toNat ∧ c.toNat ≤ 122) :
    c.toUpper.toNat = c.toNat - 32 := by
  unfold Char.toUpper
  rw [if_pos h]
  simp only [Char.toNat, Char.ofNat]
  rw [dif_pos]
  · rfl
  · have hlt : c.toNat - 32 < 55296 := by omega
    exact Or.inl hlt

theorem hex_toUpper (c : Char) (h : isHexChar c = true) :
    isHexChar c.toUpper = true ∧ c.toUpper.toUpper = c.toUpper := by
  rcases isHexChar_toNat c h with h' | h' | h'
  · have hu := toUpper_of_not_lower c (by omega)
    rw [hu, hu]
    exact ⟨h, rfl⟩
  · have hup : c.toUpper.toNat = c.toNat - 32 := toNat_toUpper_of_lower c (by omega)
    have h65 : 65 ≤ c.toUpper.toNat := by omega
    have h70 : c.toUpper.toNat ≤ 70 := by omega
    constructor
    · simp only [isHexChar, Bool.or_eq_true, Bool.and_eq_true, decide_eq_true_eq]
      exact Or.inr ⟨h65, h70⟩
    · exact toUpper_of_not_lower _ (by omega)
  · have hu := toUpper_of_not_lower c (by omega)
    rw [hu, hu]
    exact ⟨h, rfl⟩

-- Claim theorems -------------------------------------------------------

/-- C1: the claim says a failed first fetch after startup is absorbed and the
process continues; in the code, main computes `value_kwh * 1000` on the
startup path with no None check, so a failed first fetch raises an uncaught
TypeError and the process dies. This theorem evaluates the startup step at
the failing input. -/
theorem C1_startup_fetch_failure_is_fatal :
    startup_step none =
      Except.error "TypeError: unsupported operand type for *: NoneType and int" := rfl

/-- C2 counterexample: a 200 response whose JSON object lacks the `value`
field yields a Reading of 0.0 (via `data.get("value", 0.0)`), not a Failure,
refuting the claim that a missing `value` field produces a Failure. -/
theorem C2_counterexample :
    fetch_energy_value (some ⟨200, JsonBody.object none⟩) = some 0 ∧
    fetch_energy_value (some ⟨200, JsonBody.object none⟩) ≠ none := by
  constructor
  · rfl
  · intro h
    exact Option.noConfusion h

/-- C2 amended: for a 2xx response, a malformed JSON body or a non-numeric
`value` yields a Failure (None) without raising, a missing `value` field
yields a Reading of 0.0 rather than a Failure, and a numeric `value` q
yields a Reading equal to q exactly; a network failure also yields None. -/
theorem C2_fetch_behaviour (status : ℕ) (q : ℚ) (h : status < 400) :
    fetch_energy_value (some ⟨status, JsonBody.malformed⟩) = none ∧
    fetch_energy_value (some ⟨status, JsonBody.object (some JsonValue.nonNumeric)⟩) = none ∧
    fetch_energy_value (some ⟨status, JsonBody.object none⟩) = some 0 ∧
    fetch_energy_value (some ⟨status, JsonBody.object (some (JsonValue.num q))⟩) = some q ∧
    fetch_energy_value none = none := by
  have hn : ¬ (400 ≤ status) := by omega
  refine ⟨?_, ?_, ?_, ?_, rfl⟩ <;> simp [fetch_energy_value, hn]

/-- C2 witness: the amended behaviour at a concrete 200 response. -/
theorem C2_fetch_behaviour_witness :
    fetch_energy_value (some ⟨200, JsonBody.malformed⟩) = none ∧
    fetch_energy_value (some ⟨200, JsonBody.object (some JsonValue.nonNumeric)⟩) = none ∧
    fetch_energy_value (some ⟨200, JsonBody.object none⟩) = some 0 ∧
    fetch_energy_value (some ⟨200, JsonBody.object (some (JsonValue.num (41/4)))⟩) = some (41/4) ∧
    fetch_energy_value none = none :=
  C2_fetch_behaviour 200 (41/4) (by omega)

/-- C3: for a previous reading p and current reading c (kWh), the delta is
(c - p) * 1000 watt-hours verbatim, the stored baseline becomes c * 1000,
the delta is negative whenever c < p, and a third reading d yields a delta
relative to c, independent of p. -/
theorem C3_compute_delta (p c d : ℚ) :
    (compute_delta (p * 1000) c).1 = (c - p) * 1000 ∧
    (compute_delta (p * 1000) c).2 = c * 1000 ∧
    (c < p → (compute_delta (p * 1000) c).1 < 0) ∧
    (compute_delta (compute_delta (p * 1000) c).2 d).1 = (d - c) * 1000 := by
  refine ⟨by unfold compute_delta; ring, rfl, ?_, by unfold compute_delta; ring⟩
  intro hlt
  unfold compute_delta
  simp only []
  nlinarith

/-- C3 witness: readings 2 then 1 kWh give a delta of -1000 Wh. -/
theorem C3_compute_delta_witness :
    (compute_delta ((2 : ℚ) * 1000) 1).1 < 0 :=
  (C3_compute_delta 2 1 3).2.2.1 (by norm_num)

/-- C4: an iteration whose fetch fails leaves the whole state (baseline and
log file) unchanged and writes no row, and the following successful
iteration produces exactly what it would have produced had the failed
iteration never happened. -/
theorem C4_failure_isolation (st : LoopState) (c : ℚ) (u1 l1 u2 l2 : String)
    (hour1 hour2 : ℕ) :
    loop_iteration st none u1 l1 hour1 = st ∧
    loop_iteration (loop_iteration st none u1 l1 hour1) (some c) u2 l2 hour2 =
      loop_iteration st (some c) u2 l2 hour2 :=
  ⟨rfl, rfl⟩

/-- C8: the cost function of the logger is linear with flat rate 0.30: it
takes no peak/off-peak input at all, cost(2x) = 2 cost(x), cost(0) = 0, and
cost(x) = x * 0.30 / 1000. -/
theorem C8_cost_linear (x : ℚ) :
    cost (2 * x) = 2 * cost x ∧ cost 0 = 0 ∧ cost x = x * (0.30 : ℚ) / 1000 := by
  unfold cost RATE_PER_KWH
  refine ⟨by ring, by ring, rfl⟩

/-- C9: write_csv_row decides whether to write the header solely by file
existence: against any existing file (even an externally created empty one)
it appends the data row only, and against a non-existent path it writes the
header followed by the data row. -/
theorem C9_header_by_existence (rows : List (List String)) (row : List String) :
    write_csv_row (some rows) row = some (rows ++ [row]) ∧
    write_csv_row (some []) row = some [row] ∧
    write_csv_row none row = some [csvHeader, row] :=
  ⟨rfl, rfl, rfl⟩

/-- C5: N calls of write_csv_row (N at least 1) against a path with no file
produce exactly one header row followed by the N data rows in order, the
header first; and any call sequence against an existing file appends the
new rows after the existing content, never rewriting or truncating it. -/
theorem C5_append_only_log (row : List String) (rows prior : List (List String)) :
    append_rows none (row :: rows) = some (csvHeader :: row :: rows) ∧
    append_rows (some prior) rows = some (prior ++ rows) := by
  constructor
  · have h := append_rows_some rows ([csvHeader] ++ [row])
    unfold append_rows at h ⊢
    rw [List.foldl_cons]
    rw [show write_csv_row none row = some ([csvHeader] ++ [row]) from rfl]
    rw [h]
    simp
  · exact append_rows_some rows prior

/-- C6: classify returns peak exactly when the local hour is one of 16-20,
and it depends only on the hour component: two timestamps with the same
hour classify identically regardless of date. -/
theorem C6_classify_peak_hours (ts : LocalTimestamp) :
    (classify ts = true ↔ 16 ≤ ts.hour ∧ ts.hour ≤ 20) ∧
    (∀ ts2 : LocalTimestamp, ts2.hour = ts.hour → classify ts2 = classify ts) := by
  constructor
  · show List.elem ts.hour [16, 17, 18, 19, 20] = true ↔ _
    rw [List.elem_iff]
    simp only [List.mem_cons, List.not_mem_nil, or_false]
    omega
  · intro ts2 h
    unfold classify
    rw [h]

/-- C6 witness: two timestamps on different dates with hour 18 classify
identically (both peak). -/
theorem C6_classify_witness :
    classify ⟨2025, 1, 1, 18, 0⟩ = classify ⟨2024, 6, 15, 18, 30⟩ ∧
    classify ⟨2024, 6, 15, 18, 30⟩ = true :=
  ⟨(C6_classify_peak_hours ⟨2024, 6, 15, 18, 30⟩).2 ⟨2025, 1, 1, 18, 0⟩ rfl,
   (C6_classify_peak_hours ⟨2024, 6, 15, 18, 30⟩).1.mpr (by decide)⟩

/-- C7: with a first reading of 10.000 kWh seeding the baseline and a second
reading of 10.250 kWh at local hour 18, the logged row renders watt_hours
as "250", cost_dollars as "0.075000" and is_peak as TRUE, and the new
baseline is 10250 Wh. -/
theorem C7_end_to_end (file : List (List String)) (u l : String) :
    startup_step (some (10.000 : ℚ)) = Except.ok 10000 ∧
    loop_iteration ⟨10000, some file⟩ (some (10.250 : ℚ)) u l 18 =
      ⟨10250, some (file ++ [[u, l, "250", "0.075000", "TRUE"]])⟩ := by
  have hf0 : format_fixed 0 (250 : ℚ) = "250" := by
    rw [format_fixed_eq 0 250 250 (by norm_num)]
    decide
  have hf6 : format_fixed 6 ((3 : ℚ)/40) = "0.075000" := by
    rw [format_fixed_eq 6 (3/40) 75000 (by norm_num)]
    decide
  constructor
  · show Except.ok ((10.000 : ℚ) * 1000) = Except.ok 10000
    norm_num
  · show LoopState.mk ((10.250 : ℚ) * 1000)
      (write_csv_row (some file)
        [u, l, format_fixed 0 ((10.250 : ℚ) * 1000 - 10000),
         format_fixed 6 (((10.250 : ℚ) * 1000 - 10000) * RATE_PER_KWH / 1000),
         if PEAK_HOURS.contains 18 then "TRUE" else "FALSE"]) = _
    rw [show ((10.250 : ℚ) * 1000 - 10000) = 250 by norm_num]
    rw [show ((250 : ℚ) * RATE_PER_KWH / 1000) = 3/40 by norm_num [RATE_PER_KWH]]
    rw [hf0, hf6]
    rw [show ((10.250 : ℚ) * 1000) = 10250 by norm_num]
    rfl

theorem clean_fixed_point (l : List Char) (h6 : l.length = 6)
    (hall : ∀ c ∈ l, isHexChar c = true ∧ c.toUpper = c) :
    clean_and_extract_mac_suffix (String.mk l) = Except.ok (String.mk l) := by
  have hfilter : l.filter isHexChar = l :=
    List.filter_eq_self.mpr (fun c hc => (hall c hc).1)
  have hmap : l.map Char.toUpper = l := by
    rw [List.map_congr_left (fun c hc => (hall c hc).2)]
    simp
  show (if ((l.filter isHexChar).map Char.toUpper).length < 6 then
      (Except.error "MAC address must contain at least 6 hex characters." :
        Except String String)
    else Except.ok (String.mk (((l.filter isHexChar).map Char.toUpper).drop
      (((l.filter isHexChar).map Char.toUpper).length - 6)))) = Except.ok (String.mk l)
  rw [hfilter, hmap, h6]
  simp

/-- C10: clean_and_extract_mac_suffix fails (ValueError) exactly when the
input holds fewer than 6 hex characters; otherwise it returns the last 6
hex characters of the input uppercased, a 6-character uppercase-hex string
on which the function is a fixed point. -/
theorem C10_mac_suffix (mac_address : String) :
    ((mac_address.data.filter isHexChar).length < 6 →
      clean_and_extract_mac_suffix mac_address =
        Except.error "MAC address must contain at least 6 hex characters.") ∧
    (6 ≤ (mac_address.data.filter isHexChar).length →
      ∃ s, clean_and_extract_mac_suffix mac_address = Except.ok s ∧
        s.data = ((mac_address.data.filter isHexChar).map Char.toUpper).drop
          ((mac_address.data.filter isHexChar).length - 6) ∧
        s.length = 6 ∧
        (∀ c ∈ s.data, isHexChar c = true ∧ c.toUpper = c) ∧
        clean_and_extract_mac_suffix s = Except.ok s) := by
  constructor
  · intro h
    have hcond : (String.mk ((mac_address.data.filter isHexChar).map Char.toUpper)).length < 6 := by
      show ((mac_address.data.filter isHexChar).map Char.toUpper).length < 6
      rw [List.length_map]
      exact h
    exact if_pos hcond
  · intro h
    have hlenmap : ((mac_address.data.filter isHexChar).map Char.toUpper).length =
        (mac_address.data.filter isHexChar).length := List.length_map _ _
    have hcond : ¬ (String.mk ((mac_address.data.filter isHexChar).map Char.toUpper)).length < 6 := by
      show ¬ ((mac_address.data.filter isHexChar).map Char.toUpper).length < 6
      omega
    refine ⟨String.mk (((mac_address.data.filter isHexChar).map Char.toUpper).drop
      (((mac_address.data.filter isHexChar).map Char.toUpper).length - 6)), if_neg hcond,
      ?_, ?_, ?_, ?_⟩
    · show ((mac_address.data.filter isHexChar).map Char.toUpper).drop
        (((mac_address.data.filter isHexChar).map Char.toUpper).length - 6) = _
      rw [hlenmap]
    · show (((mac_address.data.filter isHexChar).map Char.toUpper).drop
        (((mac_address.data.filter isHexChar).map Char.toUpper).length - 6)).length = 6
      rw [List.length_drop]
      omega
    · intro c hc
      have hc2 : c ∈ (mac_address.data.filter isHexChar).map Char.toUpper :=
        List.drop_subset _ _ hc
      rcases List.mem_map.mp hc2 with ⟨c0, hc0, rfl⟩
      exact hex_toUpper c0 (List.mem_filter.mp hc0).2
    · apply clean_fixed_point
      · rw [List.length_drop]
        omega
      · intro c hc
        have hc2 : c ∈ (mac_address.data.filter isHexChar).map Char.toUpper :=
          List.drop_subset _ _ hc
        rcases List.mem_map.mp hc2 with ⟨c0, hc0, rfl⟩
        exact hex_toUpper c0 (List.mem_filter.mp hc0).2

/-- C10 witness: a too-short input raises and a full MAC address yields the
uppercased last-6-hex suffix, on which the function is a fixed point. -/
theorem C10_mac_suffix_witness :
    clean_and_extract_mac_suffix "1:2" =
      Except.error "MAC address must contain at least 6 hex characters." ∧
    (∃ s, clean_and_extract_mac_suffix "12:34:56:78:90:ab" = Except.ok s ∧
      s.data = ((("12:34:56:78:90:ab" : String).data.filter isHexChar).map Char.toUpper).drop
        ((("12:34:56:78:90:ab" : String).data.filter isHexChar).length - 6) ∧
      s.length = 6 ∧
      (∀ c ∈ s.data, isHexChar c = true ∧ c.toUpper = c) ∧
      clean_and_extract_mac_suffix s = Except.ok s) :=
  ⟨(C10_mac_suffix "1:2").1 (by decide),
   (C10_mac_suffix "12:34:56:78:90:ab").2 (by decide)⟩
